import Mathlib

/-!
ChessDataManagement, `web/helpers.go`.

A shallow embedding of the helper functions of the web server
(`username`, `kuserFromCache`, `getUserCredentials`, `validateData`,
`insertData`) together with theorems about them.

Conventions of the embedding:

* a Go `error` is an `Option Error` (`none` is `nil`);
* a Go map `Record = map[string]interface{}` is an association list with
  unique keys (`AList`); ranging over the map visits its keys once each;
* the global `Config` is an explicit parameter;
* external collaborators (the Kerberos library, file registration, the
  metadata store, the file system's choice of temporary names) are fields of
  an explicit environment, and the calls made to the stores are recorded in a
  trace;
* a run-time panic (a failed unchecked type assertion, a nil dereference) is
  an explicit outcome.
-/

namespace ChessDataManagement

/-! ## Data model -/

/-- Dynamically typed attribute values (`interface{}` as decoded from a request):
strings, numbers, booleans and the nil interface value. -/
inductive Value where
  | str (s : String)
  | num (n : Int)
  | flag (b : Bool)
  | null
  deriving DecidableEq

/-- The Go type `Record`, a `map[string]interface{}`: keys are unique. -/
abbrev Record := AList (fun _ : String => Value)

/-- Go error values produced or forwarded by `helpers.go`.  The two validation
failures keep the data their message is formatted from; `New msg` is
`errors.New(msg)` and also stands for any error value of a collaborator. -/
inductive Error where
  | ErrNoCookie
  | New (msg : String)
  | missingMandatory (keys mKeys : List String)
  | missingAdjustable (keys aKeys : List String)
  deriving DecidableEq

/-- The fields of the global `Config` that `helpers.go` reads. -/
structure Configuration where
  Krb5Conf : String
  Realm : String
  DBName : String
  DBColl : String
  MandatoryAttrs : List String
  AdjustableAttrs : List String
  deriving DecidableEq

/-- Outcome of a Go call that may panic instead of returning. -/
inductive Outcome (α : Type) where
  | returned (a : α)
  | panicked
  deriving DecidableEq

/-! ## Helpers used by `validateData` -/

/-- Modelled from the spec: `InList(k, list)` is absent from the sources; the
spec describes its use as selecting the keys "that belong to" a schema list, so
it is the membership test found by scanning the list. -/
def InList (a : String) (list : List String) : Bool :=
  list.any (fun x => x == a)

/-- Modelled from the spec: `MapKeys(rec)` is absent from the sources; it yields
"the record's key set", each key of the map once. -/
def MapKeys (rec : Record) : List String :=
  rec.keys

/-- Byte-wise lexicographic `<` on strings, the order of Go's string comparison. -/
def lessChars : List Char → List Char → Bool
  | _, [] => false
  | [], _ :: _ => true
  | a :: as, b :: bs => decide (a.toNat < b.toNat) || (a.toNat == b.toNat && lessChars as bs)

/-- Modelled from the spec: `StringList` (the `sort.Interface` wrapper of
`[]string`) is absent from the sources; `Less i j` compares the two strings. -/
def StringList.Less (a b : String) : Bool :=
  lessChars a.data b.data

/-- The call `sort.Sort(StringList(xs))`: the elements of `xs` in ascending order. -/
def sortStrings (xs : List String) : List String :=
  xs.insertionSort (fun a b => StringList.Less b a = false)

/-- Go's `%v` rendering of a `[]string`: the elements separated by blanks, in brackets. -/
def fmtList (xs : List String) : String :=
  "[" ++ " ".intercalate xs ++ "]"

/-- The text of an error value (`err.Error()`). -/
def Error.message : Error → String
  | .ErrNoCookie => "http: named cookie not present"
  | .New msg => msg
  | .missingMandatory keys mKeys =>
      "List of records keys does not have all mandatory attributes"
        ++ "\nList of records keys: " ++ fmtList keys
        ++ "\nList of mandatory attrs: " ++ fmtList mKeys
  | .missingAdjustable keys aKeys =>
      "List of records keys does not have all adjustable attributes"
        ++ "\nList of records keys: " ++ fmtList keys
        ++ "\nList of adjustable attrs: " ++ fmtList aKeys

/-! ## `validateData` -/

/-- One iteration of the `for k, _ := range rec` loop of `validateData`:
`k` is appended to `mKeys` and/or `aKeys` when it is in the schema list. -/
def validateData.step (cfg : Configuration) (acc : List String × List String) (k : String) :
    List String × List String :=
  (if InList k cfg.MandatoryAttrs then acc.1 ++ [k] else acc.1,
   if InList k cfg.AdjustableAttrs then acc.2 ++ [k] else acc.2)

/-- The function `validateData` of `helpers.go`. -/
def validateData (cfg : Configuration) (rec : Record) : Option Error :=
  let keys := MapKeys rec
  let collected := rec.keys.foldl (validateData.step cfg) ([], [])
  let mKeys := sortStrings collected.1
  let aKeys := sortStrings collected.2
  if mKeys.length != cfg.MandatoryAttrs.length then
    some (Error.missingMandatory keys mKeys)
  else if aKeys.length != cfg.AdjustableAttrs.length then
    some (Error.missingAdjustable keys aKeys)
  else
    none

/-- The validation rule in the words of the specification: the mandatory
failure when the matched mandatory subset is smaller than the schema's mandatory
list, otherwise the adjustable failure when the matched adjustable subset is
smaller than the schema's adjustable list, otherwise success. -/
def validateSpec (cfg : Configuration) (rec : Record) : Option Error :=
  let keys := rec.keys
  let mKeys := sortStrings (keys.filter (fun k => decide (k ∈ cfg.MandatoryAttrs)))
  let aKeys := sortStrings (keys.filter (fun k => decide (k ∈ cfg.AdjustableAttrs)))
  if mKeys.length < cfg.MandatoryAttrs.length then
    some (Error.missingMandatory keys mKeys)
  else if aKeys.length < cfg.AdjustableAttrs.length then
    some (Error.missingAdjustable keys aKeys)
  else
    none

/-- Builds a record from a list of bindings; of two bindings of one key the earlier stays. -/
def mkRecord (kvs : List (String × Value)) : Record :=
  kvs.foldr (fun kv r => AList.insert kv.1 kv.2 r) ∅

/-- A configuration with the given schema lists. -/
def mkConfig (mandatory adjustable : List String) : Configuration :=
  ⟨"/etc/krb5.conf", "CLASSE.CORNELL.EDU", "chess", "meta", mandatory, adjustable⟩

/-! ## `username` -/

/-- The parts of an `http.Request` that `helpers.go` reads: the cookies and the
form values, each as name/value pairs in the order received. -/
structure Request where
  cookies : List (String × String)
  form : List (String × String)
  deriving DecidableEq

/-- The call `r.Cookie(name)`: the value of the first cookie of that name, or
`http.ErrNoCookie` when there is none. -/
def Request.Cookie (r : Request) (name : String) : Except Error String :=
  match r.cookies.find? (fun c => c.1 == name) with
  | some c => .ok c.2
  | none => .error Error.ErrNoCookie

/-- The call `r.FormValue(key)`: the first value of that key, or the empty string. -/
def Request.FormValue (r : Request) (key : String) : String :=
  match r.form.find? (fun c => c.1 == key) with
  | some c => c.2
  | none => ""

/-- The call `strings.Split(s, "-")`: the pieces of `s` between the dashes, one more
than there are dashes. -/
def splitDash (s : String) : List String :=
  (s.data.splitOn '-').map String.mk

/-- The function `username` of `helpers.go`: the returned pair is (user, error). -/
def username (r : Request) : String × Option Error :=
  match r.Cookie "auth-session" with
  | .error err => ("", some err)
  | .ok s =>
    let arr := splitDash s
    if arr.length != 2 then
      ("", some (Error.New "Unable to decript auth-session"))
    else
      (arr.headD "", none)

/-- The function `auth` of `helpers.go`. -/
def auth (r : Request) : Option Error :=
  (username r).2

/-- The shape the specification asks of a session value: exactly two parts, neither empty. -/
def twoNonEmptyParts (s : String) : Bool :=
  match splitDash s with
  | [a, b] => a != "" && b != ""
  | _ => false

/-! ## The Kerberos collaborator, the file system and `getUserCredentials` -/

/-- Sequencing of calls that may panic. -/
def Outcome.bind {α β : Type} (x : Outcome α) (f : α → Outcome β) : Outcome β :=
  match x with
  | .returned a => f a
  | .panicked => .panicked

/-- Abstract `credentials.Credentials`. -/
structure Credentials where
  principal : String
  deriving DecidableEq

/-- Abstract `config.Config` of the Kerberos library. -/
structure KrbConfig where
  source : String
  deriving DecidableEq

/-- Abstract `credentials.CCache`. -/
structure CCache where
  bytes : String
  deriving DecidableEq

/-- The `client.Client` of the Kerberos library, of which `helpers.go` reads the
field `Credentials` (a pointer, possibly nil). -/
structure Client where
  Credentials : Option Credentials
  deriving DecidableEq

/-- Files by path, with their contents. -/
abbrev FileSystem := AList (fun _ : String => String)

/-- The behaviour of the collaborators outside the repository during one call.
Pointers returned by the library may be nil (`none`), a returned error may come
together with a value, and a library call handed a nil pointer may panic. -/
structure Env where
  /-- The call `config.Load(path)`. -/
  Load : String → Outcome (Option KrbConfig × Option Error)
  /-- The call `credentials.LoadCCache(path)`, which reads the file system. -/
  LoadCCache : FileSystem → String → Outcome (Option CCache × Option Error)
  /-- The call `client.NewClientFromCCache(ccache, cfg)`. -/
  NewClientFromCCache : Option CCache → Option KrbConfig → Outcome (Option Client × Option Error)
  /-- The call `client.NewClientWithPassword(user, realm, password, cfg, DisablePAFXFAST(true))`. -/
  NewClientWithPassword : String → String → String → Option KrbConfig → Option Client
  /-- The call `client.Login()`. -/
  Login : Option Client → Outcome (Option Error)
  /-- The path `ioutil.TempFile(dir, pattern)` settles on, or its failure. -/
  tempName : FileSystem → String → String → Except Error String
  /-- The error of `tmpFile.Write(bytes)` on the file of that path, if it fails. -/
  writeError : FileSystem → String → String → Option Error
  /-- The call `InsertFiles(experiment, processing, tier, files)`, absent from the sources;
  the specification gives it the result `(datasetID string, error)`. -/
  InsertFiles : String → String → String → List String → String × Option Error
  /-- The call `MongoUpsert(dbname, collname, records)`, absent from the sources; the
  specification gives it the result `error`. -/
  MongoUpsert : String → String → List Record → Option Error

/-- The function `kuserFromCache` of `helpers.go`.  The errors of `config.Load`,
`LoadCCache` and `NewClientFromCCache` are assigned to `err` and overwritten
unread; only the error of `Login` is tested. -/
def kuserFromCache (cfg : Configuration) (env : Env) (fs : FileSystem) (cacheFile : String) :
    Outcome (Option Credentials × Option Error) :=
  (env.Load cfg.Krb5Conf).bind fun (kcfg, _) =>
  (env.LoadCCache fs cacheFile).bind fun (ccache, _) =>
  (env.NewClientFromCCache ccache kcfg).bind fun (client, _) =>
  (env.Login client).bind fun err =>
  match err with
  | some e => .returned (none, some e)
  | none =>
    match client with
    | none => .panicked
    | some cl => .returned (cl.Credentials, none)

/-- The function `kuser` of `helpers.go` (the logging calls have no effect on the result). -/
def kuser (cfg : Configuration) (env : Env) (user password : String) :
    Outcome (Option Credentials × Option Error) :=
  (env.Load cfg.Krb5Conf).bind fun (kcfg, err) =>
  match err with
  | some e => .returned (none, some e)
  | none =>
    let client := env.NewClientWithPassword user cfg.Realm password kcfg
    (env.Login client).bind fun err =>
    match err with
    | some e => .returned (none, some e)
    | none =>
      match client with
      | none => .panicked
      | some cl => .returned (cl.Credentials, none)

/-- The call `ioutil.TempFile(dir, pattern)`: a new, empty file is created
exclusively, so a path that exists already is not taken. -/
def ioutil_TempFile (env : Env) (fs : FileSystem) (dir pattern : String) :
    Except Error String × FileSystem :=
  match env.tempName fs dir pattern with
  | .error e => (.error e, fs)
  | .ok name =>
    if name ∈ fs.keys then (.error (Error.New ("open " ++ name ++ ": file exists")), fs)
    else (.ok name, fs.insert name "")

/-- The call `tmpFile.Write(bytes)` on the file of path `name`. -/
def File_Write (env : Env) (fs : FileSystem) (name bytes : String) :
    Option Error × FileSystem :=
  match env.writeError fs name bytes with
  | some e => (some e, fs)
  | none => (none, fs.insert name bytes)

/-- The call `os.Remove(name)`, whose result the deferred call discards. -/
def os_Remove (fs : FileSystem) (name : String) : FileSystem :=
  fs.erase name

/-- The statements of `getUserCredentials` that follow `defer os.Remove(tmpFile.Name())`.
The error of `tmpFile.Close()` is assigned and overwritten by the next call, so closing
has no part in the result. -/
def getUserCredentials.body (cfg : Configuration) (env : Env) (fs : FileSystem)
    (tmpFile ticket : String) : Outcome (Option Credentials × Option Error) × FileSystem :=
  match File_Write env fs tmpFile ticket with
  | (some _, fs1) => (.returned (none, some (Error.New "unable to write kerberos ticket")), fs1)
  | (none, fs1) =>
    match kuserFromCache cfg env fs1 tmpFile with
    | .panicked => (.panicked, fs1)
    | .returned (_, some _) => (.returned (none, some (Error.New "wrong user credentials")), fs1)
    | .returned (none, none) =>
      (.returned (none, some (Error.New "unable to obtain user credentials")), fs1)
    | .returned (some creds, none) => (.returned (some creds, none), fs1)

/-- The function `getUserCredentials` of `helpers.go`: the outcome of the call and
the file system it leaves.  The deferred removal runs when the body returns and
when it panics. -/
def getUserCredentials (cfg : Configuration) (env : Env) (fs : FileSystem) (r : Request) :
    Outcome (Option Credentials × Option Error) × FileSystem :=
  let name := r.FormValue "name"
  let ticket := r.FormValue "ticket"
  match ioutil_TempFile env fs "/tmp" name with
  | (.error err, fs1) =>
    (.returned (none, some (Error.New ("Unable to create tempfile: " ++ err.message))), fs1)
  | (.ok tmpFile, fs1) =>
    let res := getUserCredentials.body cfg env fs1 tmpFile ticket
    (res.1, os_Remove res.2 tmpFile)

/-! ## `insertData` -/

/-- A call to one of the two stores, with what it returned. -/
inductive Call where
  | InsertFiles (experiment processing tier : String) (files : List String)
      (result : String × Option Error)
  | MongoUpsert (dbname collname : String) (records : List Record) (result : Option Error)

/-- Whether the call is a metadata-store upsert. -/
def Call.isUpsert : Call → Bool
  | .MongoUpsert _ _ _ _ => true
  | .InsertFiles _ _ _ _ _ => false

/-- The unchecked type assertion `v.(string)` on a map element: it panics when the
key is absent (the nil interface) or the value is not a string. -/
def assertString : Option Value → Outcome String
  | some (.str s) => .returned s
  | _ => .panicked

/-- Whether a map element is present and a string. -/
def isString : Option Value → Bool
  | some (.str _) => true
  | _ => false

/-- What a call of `insertData` leaves: how it ended (the returned `error`, or a
panic), the record (a map, updated in place) and the calls made to the stores. -/
structure InsertResult where
  out : Outcome (Option Error)
  record : Record
  calls : List Call

/-- The function `insertData` of `helpers.go`. -/
def insertData (cfg : Configuration) (env : Env) (rec : Record) : InsertResult :=
  match validateData cfg rec with
  | some err => ⟨.returned (some err), rec, []⟩
  | none =>
    match assertString (rec.lookup "path") with
    | .panicked => ⟨.panicked, rec, []⟩
    | .returned path =>
    match assertString (rec.lookup "experiment") with
    | .panicked => ⟨.panicked, rec, []⟩
    | .returned experiment =>
    match assertString (rec.lookup "processing") with
    | .panicked => ⟨.panicked, rec, []⟩
    | .returned processing =>
    match assertString (rec.lookup "tier") with
    | .panicked => ⟨.panicked, rec, []⟩
    | .returned tier =>
      let files := [path]
      let dataset := "/" ++ experiment ++ "/" ++ processing ++ "/" ++ tier
      let rec1 := rec.insert "dataset" (.str dataset)
      match files with
      | file0 :: _ =>
        let rec2 := rec1.insert "path" (.str file0)
        let res := env.InsertFiles experiment processing tier files
        match res.2 with
        | some err =>
          ⟨.returned (some err), rec2, [.InsertFiles experiment processing tier files res]⟩
        | none =>
          let rec3 := rec2.insert "did" (.str res.1)
          let records := [rec3]
          ⟨.returned none, rec3,
            [.InsertFiles experiment processing tier files res,
             .MongoUpsert cfg.DBName cfg.DBColl records
               (env.MongoUpsert cfg.DBName cfg.DBColl records)]⟩
      | [] =>
        ⟨.returned (some (Error.New ("No files found associated with path=" ++ path
          ++ ", experiment=" ++ experiment ++ ", processing=" ++ processing
          ++ ", tier=" ++ tier))), rec1, []⟩

/-- The number of metadata-store upserts among the calls. -/
def upsertCount (calls : List Call) : Nat :=
  (calls.filter Call.isUpsert).length

/-! ## Sample inputs -/

/-- A run in which every collaborator succeeds: the realm configuration and the
ticket cache load, the login succeeds, registration returns the identifier `did-1`. -/
def envOk : Env :=
  ⟨fun path => .returned (some ⟨path⟩, none),
   fun fs path => .returned (some ⟨(fs.lookup path).getD ""⟩, none),
   fun _ _ => .returned (some ⟨some ⟨"alice@CLASSE.CORNELL.EDU"⟩⟩, none),
   fun user realm _ _ => some ⟨some ⟨user ++ "@" ++ realm⟩⟩,
   fun _ => .returned none,
   fun _ dir pattern => .ok (dir ++ "/" ++ pattern ++ "123456"),
   fun _ _ _ => none,
   fun _ _ _ _ => ("did-1", none),
   fun _ _ _ => none⟩

/-- A run in which the ticket cache cannot be loaded: `LoadCCache` returns an empty
cache with its error, the client built from it comes with the error that no ticket
was found, and the login reports that the client has no user name. -/
def envBadCache : Env :=
  ⟨fun path => .returned (some ⟨path⟩, none),
   fun _ _ => .returned (some ⟨""⟩, some (Error.New "unable to load credential cache")),
   fun _ _ => .returned (some ⟨some ⟨""⟩⟩, some (Error.New "TGT not found in CCache")),
   fun user realm _ _ => some ⟨some ⟨user ++ "@" ++ realm⟩⟩,
   fun _ => .returned (some (Error.New "client does not have a username")),
   fun _ dir pattern => .ok (dir ++ "/" ++ pattern ++ "123456"),
   fun _ _ _ => none,
   fun _ _ _ _ => ("did-1", none),
   fun _ _ _ => none⟩

/-- A run in which the realm configuration cannot be loaded: `config.Load` returns nil
with its error, and a login with the nil configuration panics. -/
def envBadConfig : Env :=
  ⟨fun _ => .returned (none, some (Error.New "configuration file could not be opened")),
   fun fs path => .returned (some ⟨(fs.lookup path).getD ""⟩, none),
   fun _ _ => .returned (some ⟨some ⟨"alice@CLASSE.CORNELL.EDU"⟩⟩, none),
   fun user realm _ _ => some ⟨some ⟨user ++ "@" ++ realm⟩⟩,
   fun _ => .panicked,
   fun _ dir pattern => .ok (dir ++ "/" ++ pattern ++ "123456"),
   fun _ _ _ => none,
   fun _ _ _ _ => ("did-1", none),
   fun _ _ _ => none⟩

/-- A request carrying the given session cookie value. -/
def sessionRequest (value : String) : Request :=
  ⟨[("auth-session", value)], []⟩

/-- A request posting a ticket under a name. -/
def ticketRequest (name ticket : String) : Request :=
  ⟨[], [("name", name), ("ticket", ticket)]⟩

/-- The schema of the specification's example. -/
def sampleConfig : Configuration :=
  mkConfig ["experiment", "tier"] ["processing"]

/-- A record with the four string fields. -/
def sampleRecord : Record :=
  mkRecord [("experiment", .str "e1"), ("tier", .str "t1"), ("processing", .str "p1"),
    ("path", .str "/data/run1")]

/-- A record that has the three schema attributes and a numeric `path`. -/
def recordNumericPath : Record :=
  mkRecord [("experiment", .str "e1"), ("tier", .str "t1"), ("processing", .str "p1"),
    ("path", .num 5)]

/-! ## Facts about `validateData` -/

theorem InList_iff (a : String) (list : List String) : InList a list = true ↔ a ∈ list := by
  unfold InList
  simp [List.any_eq_true]

theorem InList_eq_decide (a : String) (list : List String) :
    InList a list = decide (a ∈ list) := by
  rw [Bool.eq_iff_iff, InList_iff]
  simp

theorem foldl_step_eq (cfg : Configuration) (keys : List String) (m a : List String) :
    keys.foldl (validateData.step cfg) (m, a) =
      (m ++ keys.filter (fun k => decide (k ∈ cfg.MandatoryAttrs)),
       a ++ keys.filter (fun k => decide (k ∈ cfg.AdjustableAttrs))) := by
  induction keys generalizing m a with
  | nil => simp
  | cons k ks ih =>
    simp only [List.foldl_cons, validateData.step, InList_eq_decide, ih, List.filter_cons]
    by_cases hm : k ∈ cfg.MandatoryAttrs <;> by_cases ha : k ∈ cfg.AdjustableAttrs <;>
      simp [hm, ha]

theorem length_sortStrings (xs : List String) : (sortStrings xs).length = xs.length := by
  unfold sortStrings
  exact List.length_insertionSort _ xs

/-- The keys of a duplicate-free key list that belong to `attrs` are at most as
many as the entries of `attrs`. -/
theorem matched_length_le (keys attrs : List String) (hk : keys.Nodup) :
    (keys.filter (fun k => decide (k ∈ attrs))).length ≤ attrs.length := by
  have hsub : keys.filter (fun k => decide (k ∈ attrs)) ⊆ attrs := by
    intro x hx
    simpa using (List.mem_filter.mp hx).2
  exact (List.subperm_of_subset (hk.filter _) hsub).length_le

/-- The matched keys are as many as the schema list exactly when the schema list
has no repeated entry and each of its entries is a key. -/
theorem matched_length_eq_iff (keys attrs : List String) (hk : keys.Nodup) :
    (keys.filter (fun k => decide (k ∈ attrs))).length = attrs.length ↔
      attrs.Nodup ∧ ∀ a ∈ attrs, a ∈ keys := by
  have hnd : (keys.filter (fun k => decide (k ∈ attrs))).Nodup := hk.filter _
  have hsub : keys.filter (fun k => decide (k ∈ attrs)) ⊆ attrs := by
    intro x hx
    simpa using (List.mem_filter.mp hx).2
  constructor
  · intro hlen
    have hperm := (List.subperm_of_subset hnd hsub).perm_of_length_le (le_of_eq hlen.symm)
    refine ⟨hperm.nodup_iff.mp hnd, ?_⟩
    intro a ha
    exact (List.mem_filter.mp (hperm.mem_iff.mpr ha)).1
  · rintro ⟨hnodup, hall⟩
    have hsup : attrs ⊆ keys.filter (fun k => decide (k ∈ attrs)) := by
      intro a ha
      exact List.mem_filter.mpr ⟨hall a ha, by simpa using ha⟩
    exact le_antisymm (List.subperm_of_subset hnd hsub).length_le
      (List.subperm_of_subset hnodup hsup).length_le

/-- The function `validateData` in closed form: the loop collects the keys that belong to
each schema list, and sorting does not change how many there are. -/
theorem validateData_eq (cfg : Configuration) (rec : Record) :
    validateData cfg rec =
      if (rec.keys.filter (fun k => decide (k ∈ cfg.MandatoryAttrs))).length
          ≠ cfg.MandatoryAttrs.length then
        some (Error.missingMandatory rec.keys
          (sortStrings (rec.keys.filter (fun k => decide (k ∈ cfg.MandatoryAttrs)))))
      else if (rec.keys.filter (fun k => decide (k ∈ cfg.AdjustableAttrs))).length
          ≠ cfg.AdjustableAttrs.length then
        some (Error.missingAdjustable rec.keys
          (sortStrings (rec.keys.filter (fun k => decide (k ∈ cfg.AdjustableAttrs)))))
      else none := by
  simp only [validateData, MapKeys, foldl_step_eq, List.nil_append, length_sortStrings,
    bne_iff_ne, ne_eq, ite_not]

/-- Validation succeeds exactly when both matched counts equal the lengths of the schema lists. -/
theorem validateData_eq_none_iff (cfg : Configuration) (rec : Record) :
    validateData cfg rec = none ↔
      (rec.keys.filter (fun k => decide (k ∈ cfg.MandatoryAttrs))).length
          = cfg.MandatoryAttrs.length ∧
      (rec.keys.filter (fun k => decide (k ∈ cfg.AdjustableAttrs))).length
          = cfg.AdjustableAttrs.length := by
  rw [validateData_eq]
  by_cases hm : (rec.keys.filter (fun k => decide (k ∈ cfg.MandatoryAttrs))).length
      = cfg.MandatoryAttrs.length <;>
    by_cases ha : (rec.keys.filter (fun k => decide (k ∈ cfg.AdjustableAttrs))).length
      = cfg.AdjustableAttrs.length <;>
    simp [hm, ha]

/-- C1 (as amended): `validateData` returns no error if and only if every attribute of
`MandatoryAttrs` and every attribute of `AdjustableAttrs` is a key of the record and
neither schema list names an attribute twice. -/
theorem validateData_ok_iff (cfg : Configuration) (rec : Record) :
    validateData cfg rec = none ↔
      (cfg.MandatoryAttrs.Nodup ∧ ∀ a ∈ cfg.MandatoryAttrs, a ∈ rec.keys) ∧
      (cfg.AdjustableAttrs.Nodup ∧ ∀ a ∈ cfg.AdjustableAttrs, a ∈ rec.keys) := by
  rw [validateData_eq_none_iff, matched_length_eq_iff _ _ rec.keys_nodup,
    matched_length_eq_iff _ _ rec.keys_nodup]

/-- C1 (counterexample): with the schema list `["a", "a"]` the record `{a: "e"}` has every
listed attribute as a key, and yet `validateData` returns the mandatory error. -/
theorem validateData_duplicate_schema :
    ¬ (validateData (mkConfig ["a", "a"] []) (mkRecord [("a", .str "e")]) = none ↔
        (∀ a ∈ (mkConfig ["a", "a"] []).MandatoryAttrs, a ∈ (mkRecord [("a", .str "e")]).keys) ∧
        (∀ a ∈ (mkConfig ["a", "a"] []).AdjustableAttrs,
          a ∈ (mkRecord [("a", .str "e")]).keys)) := by
  decide

/-- The specification's example: all attributes present, validation succeeds. -/
theorem validateData_example_ok :
    validateData (mkConfig ["experiment", "tier"] ["processing"])
      (mkRecord [("experiment", .str "e"), ("tier", .str "t"), ("processing", .str "p"),
        ("path", .str "/x")]) = none := by
  decide

/-- The specification's example with `tier` removed: the mandatory error, carrying the
keys of the record and the matched mandatory keys. -/
theorem validateData_example_missing_tier :
    validateData (mkConfig ["experiment", "tier"] ["processing"])
      (mkRecord [("experiment", .str "e"), ("processing", .str "p"), ("path", .str "/x")])
      = some (.missingMandatory ["experiment", "processing", "path"] ["experiment"]) := by
  decide

/-- When attributes of both schema lists are missing, the mandatory error is reported. -/
theorem validateData_example_both_missing :
    validateData (mkConfig ["experiment", "tier"] ["processing"])
      (mkRecord [("experiment", .str "e"), ("path", .str "/x")])
      = some (.missingMandatory ["experiment", "path"] ["experiment"]) := by
  decide

/-- C5: `validateData` is the specification's rule with "less than" in place of the
code's `!=`: the mandatory error exactly when fewer record keys belong to
`MandatoryAttrs` than the list is long, the adjustable error exactly when that check
passes and fewer record keys belong to `AdjustableAttrs` than that list is long (so the
mandatory error is the one reported when both fail), and no error otherwise. -/
theorem validateData_refines_spec (cfg : Configuration) (rec : Record) :
    validateData cfg rec = validateSpec cfg rec := by
  have hm := matched_length_le rec.keys cfg.MandatoryAttrs rec.keys_nodup
  have ha := matched_length_le rec.keys cfg.AdjustableAttrs rec.keys_nodup
  rw [validateData_eq]
  simp only [validateSpec, length_sortStrings]
  by_cases h1 : (rec.keys.filter (fun k => decide (k ∈ cfg.MandatoryAttrs))).length
      = cfg.MandatoryAttrs.length
  · by_cases h2 : (rec.keys.filter (fun k => decide (k ∈ cfg.AdjustableAttrs))).length
        = cfg.AdjustableAttrs.length
    · simp [h1, h2]
    · have h2lt := lt_of_le_of_ne ha h2
      simp [h1, h2, h2lt]
  · have h1lt := lt_of_le_of_ne hm h1
    simp [h1, h1lt]


/-! ## Facts about `username` -/

/-- Splitting yields one part more than there are dashes. -/
theorem splitDash_length (s : String) : (splitDash s).length = s.data.count '-' + 1 := by
  unfold splitDash
  rw [List.length_map]
  generalize s.data = l
  induction l with
  | nil => rfl
  | cons c cs ih =>
    unfold List.splitOn at ih ⊢
    rw [List.splitOnP_cons]
    by_cases h : c = '-'
    · subst h
      simp [ih]
    · have hne : (c == '-') = false := by simpa using h
      have hcount : List.count '-' (c :: cs) = List.count '-' cs := by
        rw [List.count_cons]
        simp [h]
      rw [hcount, ← ih]
      simp only [hne, Bool.false_eq_true, if_false]
      cases hsp : List.splitOnP (fun x => x == '-') cs with
      | nil => exact absurd hsp (List.splitOnP_ne_nil _ _)
      | cons a as => simp [List.modifyHead]

/-- A value made of two dash-free pieces joined by one dash splits into these two pieces. -/
theorem splitDash_join (u w : String) (hu : '-' ∉ u.data) (hw : '-' ∉ w.data) :
    splitDash (u ++ "-" ++ w) = [u, w] := by
  unfold splitDash
  have hdata : (u ++ "-" ++ w).data = u.data ++ '-' :: w.data := by
    simp [String.data_append]
  rw [hdata]
  unfold List.splitOn
  rw [List.splitOnP_first (fun x => x == '-') u.data (by
      intro x hx hxe
      have hxeq : x = '-' := by simpa using hxe
      exact hu (hxeq ▸ hx)) '-' (by simp) w.data,
    List.splitOnP_eq_single (fun x => x == '-') w.data (by
      intro x hx hxe
      have hxeq : x = '-' := by simpa using hxe
      exact hw (hxeq ▸ hx))]
  rfl

/-- C2 (as amended): when the `auth-session` cookie is present with value `s`, `username`
returns the first part and no error whenever `s` splits on `-` into exactly two parts,
empty or not, and returns the error `Unable to decript auth-session` whenever `s` splits
into any other number of parts. -/
theorem username_spec (r : Request) (s : String)
    (hc : r.Cookie "auth-session" = .ok s) :
    (∀ a b, splitDash s = [a, b] → username r = (a, none)) ∧
    ((splitDash s).length ≠ 2 →
      username r = ("", some (Error.New "Unable to decript auth-session"))) := by
  constructor
  · intro a b hab
    simp [username, hc, hab]
  · intro hlen
    simp [username, hc, hlen]

/-- The amended C2 at the cookie values of the specification's example. -/
theorem username_spec_witness :
    username (sessionRequest "alice-99f3") = ("alice", none) ∧
    username (sessionRequest "alice")
      = ("", some (Error.New "Unable to decript auth-session")) ∧
    username (sessionRequest "alice-99f3-extra")
      = ("", some (Error.New "Unable to decript auth-session")) :=
  ⟨(username_spec (sessionRequest "alice-99f3") "alice-99f3" rfl).1
      "alice" "99f3" (by decide),
    (username_spec (sessionRequest "alice") "alice" rfl).2 (by decide),
    (username_spec (sessionRequest "alice-99f3-extra") "alice-99f3-extra" rfl).2
      (by decide)⟩

/-- C2 (counterexample): the cookie value `-b` does not split into two non-empty parts
(its first part is empty), and `username` returns the empty user name with no error. -/
theorem username_empty_part_accepted :
    twoNonEmptyParts "-b" = false ∧ username (sessionRequest "-b") = ("", none) := by
  decide

/-- With a session cookie present, `username` succeeds exactly on the values with one dash. -/
theorem username_ok_iff_one_dash (r : Request) (s : String)
    (hc : r.Cookie "auth-session" = .ok s) :
    (username r).2 = none ↔ s.data.count '-' = 1 := by
  have hlen := splitDash_length s
  by_cases h : (splitDash s).length = 2
  · have h1 : s.data.count '-' = 1 := by omega
    simp [username, hc, h, h1]
  · have h1 : s.data.count '-' ≠ 1 := by omega
    simp [username, hc, h, h1]

/-! ## Facts about `kuserFromCache` and `getUserCredentials` -/

/-- C3 (the code at the failing input): the ticket cache fails to load, and what
`kuserFromCache` returns is the error of the later login step, not the error of
`LoadCCache`; in the same run `config.Load` succeeded. -/
theorem kuserFromCache_drops_cache_error :
    envBadCache.LoadCCache ∅ "/tmp/krb5cc_alice"
      = .returned (some ⟨""⟩, some (Error.New "unable to load credential cache")) ∧
    kuserFromCache sampleConfig envBadCache ∅ "/tmp/krb5cc_alice"
      = .returned (none, some (Error.New "client does not have a username")) := by
  decide

/-- What `kuserFromCache` returns is decided by the login alone: an error it returns is
the error `Login` returned, whatever the three earlier steps reported. -/
theorem kuserFromCache_error_is_login_error (cfg : Configuration) (env : Env)
    (fs : FileSystem) (cacheFile : String) (creds : Option Credentials) (e : Error)
    (h : kuserFromCache cfg env fs cacheFile = .returned (creds, some e)) :
    ∃ client, env.Login client = .returned (some e) := by
  unfold kuserFromCache at h
  cases h1 : env.Load cfg.Krb5Conf with
  | panicked => simp [h1, Outcome.bind] at h
  | returned a =>
    cases h2 : env.LoadCCache fs cacheFile with
    | panicked => simp [h1, h2, Outcome.bind] at h
    | returned b =>
      cases h3 : env.NewClientFromCCache b.1 a.1 with
      | panicked => simp [h1, h2, h3, Outcome.bind] at h
      | returned c =>
        refine ⟨c.1, ?_⟩
        cases h4 : env.Login c.1 with
        | panicked => simp [h1, h2, h3, h4, Outcome.bind] at h
        | returned err =>
          cases err with
          | some e1 =>
            simp [h1, h2, h3, h4, Outcome.bind] at h
            rw [h.2]
          | none =>
            cases hc : c.1 with
            | none =>
              rw [hc] at h4
              simp [h1, h2, h3, h4, hc, Outcome.bind] at h
            | some cl =>
              rw [hc] at h4
              simp [h1, h2, h3, h4, hc, Outcome.bind] at h

/-- The sibling `kuser` returns the error of `config.Load` as soon as that step fails. -/
theorem kuser_returns_config_error (cfg : Configuration) (env : Env) (user password : String)
    (kcfg : Option KrbConfig) (e : Error)
    (h : env.Load cfg.Krb5Conf = .returned (kcfg, some e)) :
    kuser cfg env user password = .returned (none, some e) := by
  simp [kuser, h, Outcome.bind]

/-- When the realm configuration fails to load, `kuser` returns that error while
`kuserFromCache` carries on to the login, which here panics on the nil configuration. -/
theorem kuser_and_kuserFromCache_on_config_failure :
    kuser sampleConfig envBadConfig "alice" "secret"
      = .returned (none, some (Error.New "configuration file could not be opened")) ∧
    kuserFromCache sampleConfig envBadConfig ∅ "/tmp/krb5cc_alice" = .panicked := by
  decide

/-- The body of `getUserCredentials` leaves every file but the temporary one as it was. -/
theorem body_lookup_ne (cfg : Configuration) (env : Env) (fs : FileSystem)
    (tmpFile ticket p : String) (hp : p ≠ tmpFile) :
    (getUserCredentials.body cfg env fs tmpFile ticket).2.lookup p = fs.lookup p := by
  unfold getUserCredentials.body File_Write
  cases hw : env.writeError fs tmpFile ticket with
  | some e => simp
  | none =>
    simp only
    split <;> simp [AList.lookup_insert_ne hp]

/-- C9: once `ioutil.TempFile` has created the temporary file, the file system that
`getUserCredentials` leaves does not contain it, however the call ends (the write fails,
`kuserFromCache` fails, panics or returns nil credentials, or the call succeeds); every
path of the file system holds what it held before the call. -/
theorem getUserCredentials_removes_tempfile (cfg : Configuration) (env : Env)
    (fs fs1 : FileSystem) (r : Request) (tmpFile : String)
    (hcreate : ioutil_TempFile env fs "/tmp" (r.FormValue "name") = (.ok tmpFile, fs1)) :
    tmpFile ∈ fs1.keys ∧
    tmpFile ∉ (getUserCredentials cfg env fs r).2.keys ∧
    ∀ p, (getUserCredentials cfg env fs r).2.lookup p = fs.lookup p := by
  have hfresh : tmpFile ∉ fs.keys ∧ fs1 = fs.insert tmpFile "" := by
    unfold ioutil_TempFile at hcreate
    cases hn : env.tempName fs "/tmp" (r.FormValue "name") with
    | error e => simp [hn] at hcreate
    | ok name =>
      by_cases hmem : name ∈ fs.keys
      · simp [hn, hmem] at hcreate
      · simp only [hn, hmem, if_false, Prod.mk.injEq, Except.ok.injEq] at hcreate
        obtain ⟨h1, h2⟩ := hcreate
        subst h1
        exact ⟨hmem, h2.symm⟩
  obtain ⟨hnot, hfs1⟩ := hfresh
  have hfinal : (getUserCredentials cfg env fs r).2
      = (getUserCredentials.body cfg env fs1 tmpFile (r.FormValue "ticket")).2.erase tmpFile := by
    simp [getUserCredentials, hcreate, os_Remove]
  refine ⟨?_, ?_, ?_⟩
  · rw [hfs1, ← AList.mem_keys, AList.mem_insert]
    exact Or.inl rfl
  · rw [hfinal, ← AList.mem_keys, AList.mem_erase]
    exact fun h => h.1 rfl
  · intro p
    rw [hfinal]
    by_cases hp : p = tmpFile
    · subst hp
      rw [AList.lookup_erase]
      exact (AList.lookup_eq_none.mpr (fun h => hnot (AList.mem_keys.mp h))).symm
    · rw [AList.lookup_erase_ne hp, body_lookup_ne cfg env fs1 tmpFile _ p hp, hfs1,
        AList.lookup_insert_ne hp]

/-- C9 at a run in which the posted ticket is accepted: the temporary file
`/tmp/alice123456` is created and is gone when the credentials are returned. -/
theorem getUserCredentials_removes_tempfile_witness :
    (getUserCredentials sampleConfig envOk ∅ (ticketRequest "alice" "TICKET")).1
      = .returned (some ⟨"alice@CLASSE.CORNELL.EDU"⟩, none) ∧
    "/tmp/alice123456" ∈ (AList.insert "/tmp/alice123456" "" (∅ : FileSystem)).keys ∧
    "/tmp/alice123456" ∉
      (getUserCredentials sampleConfig envOk ∅ (ticketRequest "alice" "TICKET")).2.keys ∧
    ∀ p, (getUserCredentials sampleConfig envOk ∅ (ticketRequest "alice" "TICKET")).2.lookup p
      = (∅ : FileSystem).lookup p :=
  ⟨by decide,
    getUserCredentials_removes_tempfile sampleConfig envOk ∅
      (AList.insert "/tmp/alice123456" "" ∅) (ticketRequest "alice" "TICKET")
      "/tmp/alice123456" rfl⟩

/-! ## Facts about `insertData` -/

theorem assertString_str (s : String) : assertString (some (.str s)) = .returned s := rfl

theorem assertString_panicked_of_not_string (v : Option Value) (h : isString v = false) :
    assertString v = .panicked := by
  unfold isString at h
  unfold assertString
  split <;> simp_all

theorem isString_iff (v : Option Value) : isString v = true ↔ ∃ s, v = some (.str s) := by
  unfold isString
  split <;> simp_all

/-- The call of `insertData` on a valid record with four string fields, when file
registration returns the identifier `d` and no error. -/
theorem insertData_registered (cfg : Configuration) (env : Env) (rec : Record)
    (path e p t d : String) (hv : validateData cfg rec = none)
    (hpath : rec.lookup "path" = some (.str path))
    (he : rec.lookup "experiment" = some (.str e))
    (hp : rec.lookup "processing" = some (.str p))
    (ht : rec.lookup "tier" = some (.str t))
    (hreg : env.InsertFiles e p t [path] = (d, none)) :
    insertData cfg env rec =
      ⟨.returned none,
        ((rec.insert "dataset" (.str ("/" ++ e ++ "/" ++ p ++ "/" ++ t))).insert
          "path" (.str path)).insert "did" (.str d),
        [.InsertFiles e p t [path] (d, none),
         .MongoUpsert cfg.DBName cfg.DBColl
          [((rec.insert "dataset" (.str ("/" ++ e ++ "/" ++ p ++ "/" ++ t))).insert
            "path" (.str path)).insert "did" (.str d)]
          (env.MongoUpsert cfg.DBName cfg.DBColl
            [((rec.insert "dataset" (.str ("/" ++ e ++ "/" ++ p ++ "/" ++ t))).insert
              "path" (.str path)).insert "did" (.str d)])]⟩ := by
  simp [insertData, hv, hpath, he, hp, ht, assertString_str, hreg]

/-- The call of `insertData` on a valid record with four string fields, when file
registration returns an error. -/
theorem insertData_registration_failed (cfg : Configuration) (env : Env) (rec : Record)
    (path e p t : String) (err : Error) (hv : validateData cfg rec = none)
    (hpath : rec.lookup "path" = some (.str path))
    (he : rec.lookup "experiment" = some (.str e))
    (hp : rec.lookup "processing" = some (.str p))
    (ht : rec.lookup "tier" = some (.str t))
    (hreg : (env.InsertFiles e p t [path]).2 = some err) :
    insertData cfg env rec =
      ⟨.returned (some err),
        (rec.insert "dataset" (.str ("/" ++ e ++ "/" ++ p ++ "/" ++ t))).insert
          "path" (.str path),
        [.InsertFiles e p t [path] (env.InsertFiles e p t [path])]⟩ := by
  simp [insertData, hv, hpath, he, hp, ht, assertString_str, hreg]

/-- The call of `insertData` on a valid record in which one of the four fields is absent
or not a string. -/
theorem insertData_panics (cfg : Configuration) (env : Env) (rec : Record)
    (hv : validateData cfg rec = none)
    (hbad : (isString (rec.lookup "path") && isString (rec.lookup "experiment")
      && isString (rec.lookup "processing") && isString (rec.lookup "tier")) = false) :
    insertData cfg env rec = ⟨.panicked, rec, []⟩ := by
  unfold insertData
  simp only [hv]
  cases h1 : isString (rec.lookup "path") with
  | false => simp [assertString_panicked_of_not_string _ h1]
  | true =>
    obtain ⟨s1, hs1⟩ := (isString_iff _).mp h1
    cases h2 : isString (rec.lookup "experiment") with
    | false => simp [hs1, assertString_str, assertString_panicked_of_not_string _ h2]
    | true =>
      obtain ⟨s2, hs2⟩ := (isString_iff _).mp h2
      cases h3 : isString (rec.lookup "processing") with
      | false =>
        simp [hs1, hs2, assertString_str, assertString_panicked_of_not_string _ h3]
      | true =>
        obtain ⟨s3, hs3⟩ := (isString_iff _).mp h3
        cases h4 : isString (rec.lookup "tier") with
        | false =>
          simp [hs1, hs2, hs3, assertString_str, assertString_panicked_of_not_string _ h4]
        | true => simp [h1, h2, h3, h4] at hbad

/-- The four ways a call of `insertData` can go: validation fails; a type assertion
panics; registration fails; registration succeeds and the record is upserted. -/
theorem insertData_cases (cfg : Configuration) (env : Env) (rec : Record) :
    (∃ err, validateData cfg rec = some err ∧
      insertData cfg env rec = ⟨.returned (some err), rec, []⟩) ∨
    (validateData cfg rec = none ∧ insertData cfg env rec = ⟨.panicked, rec, []⟩) ∨
    (∃ path e p t err, validateData cfg rec = none ∧
      rec.lookup "path" = some (.str path) ∧ rec.lookup "experiment" = some (.str e) ∧
      rec.lookup "processing" = some (.str p) ∧ rec.lookup "tier" = some (.str t) ∧
      (env.InsertFiles e p t [path]).2 = some err ∧
      insertData cfg env rec =
        ⟨.returned (some err),
          (rec.insert "dataset" (.str ("/" ++ e ++ "/" ++ p ++ "/" ++ t))).insert
            "path" (.str path),
          [.InsertFiles e p t [path] (env.InsertFiles e p t [path])]⟩) ∨
    (∃ path e p t d, validateData cfg rec = none ∧
      rec.lookup "path" = some (.str path) ∧ rec.lookup "experiment" = some (.str e) ∧
      rec.lookup "processing" = some (.str p) ∧ rec.lookup "tier" = some (.str t) ∧
      env.InsertFiles e p t [path] = (d, none) ∧
      insertData cfg env rec =
        ⟨.returned none,
          ((rec.insert "dataset" (.str ("/" ++ e ++ "/" ++ p ++ "/" ++ t))).insert
            "path" (.str path)).insert "did" (.str d),
          [.InsertFiles e p t [path] (d, none),
           .MongoUpsert cfg.DBName cfg.DBColl
            [((rec.insert "dataset" (.str ("/" ++ e ++ "/" ++ p ++ "/" ++ t))).insert
              "path" (.str path)).insert "did" (.str d)]
            (env.MongoUpsert cfg.DBName cfg.DBColl
              [((rec.insert "dataset" (.str ("/" ++ e ++ "/" ++ p ++ "/" ++ t))).insert
                "path" (.str path)).insert "did" (.str d)])]⟩) := by
  cases hv : validateData cfg rec with
  | some err =>
    left
    exact ⟨err, rfl, by simp [insertData, hv]⟩
  | none =>
    right
    cases hbad : (isString (rec.lookup "path") && isString (rec.lookup "experiment")
      && isString (rec.lookup "processing") && isString (rec.lookup "tier")) with
    | false =>
      left
      exact ⟨rfl, insertData_panics cfg env rec hv hbad⟩
    | true =>
      right
      simp only [Bool.and_eq_true] at hbad
      obtain ⟨⟨⟨h1, h2⟩, h3⟩, h4⟩ := hbad
      obtain ⟨path, hpath⟩ := (isString_iff _).mp h1
      obtain ⟨e, he⟩ := (isString_iff _).mp h2
      obtain ⟨p, hp⟩ := (isString_iff _).mp h3
      obtain ⟨t, ht⟩ := (isString_iff _).mp h4
      cases hreg : (env.InsertFiles e p t [path]).2 with
      | some err =>
        left
        exact ⟨path, e, p, t, err, rfl, hpath, he, hp, ht, hreg,
          insertData_registration_failed cfg env rec path e p t err hv hpath he hp ht hreg⟩
      | none =>
        right
        have hpair : env.InsertFiles e p t [path] = ((env.InsertFiles e p t [path]).1, none) :=
          Prod.ext rfl hreg
        exact ⟨path, e, p, t, (env.InsertFiles e p t [path]).1, rfl, hpath, he, hp, ht, hpair,
          insertData_registered cfg env rec path e p t _ hv hpath he hp ht hpair⟩

/-- C4 (as amended): on a record that passes `validateData` but in which `path`,
`experiment`, `processing` or `tier` is absent or not a string, `insertData` does not
return an error value: the unchecked type assertion panics; no file registration and no
upsert is performed and the record is left as it was. -/
theorem insertData_type_mismatch_panics (cfg : Configuration) (env : Env) (rec : Record)
    (hv : validateData cfg rec = none)
    (hbad : (isString (rec.lookup "path") && isString (rec.lookup "experiment")
      && isString (rec.lookup "processing") && isString (rec.lookup "tier")) = false) :
    (insertData cfg env rec).out = .panicked ∧
    (insertData cfg env rec).calls = [] ∧
    (insertData cfg env rec).record = rec := by
  rw [insertData_panics cfg env rec hv hbad]
  exact ⟨rfl, rfl, rfl⟩

/-- The amended C4 at a record whose `path` is the number 5. -/
theorem insertData_type_mismatch_panics_witness :
    (insertData sampleConfig envOk recordNumericPath).out = .panicked ∧
    (insertData sampleConfig envOk recordNumericPath).calls = [] ∧
    (insertData sampleConfig envOk recordNumericPath).record = recordNumericPath :=
  insertData_type_mismatch_panics sampleConfig envOk recordNumericPath (by decide) (by decide)

/-- C4 (counterexample): the record passes `validateData`, its `path` is a number, and
`insertData` ends in a panic, so it returns no error value. -/
theorem insertData_numeric_path_no_error_value :
    validateData sampleConfig recordNumericPath = none ∧
    isString (recordNumericPath.lookup "path") = false ∧
    ¬ ∃ err, (insertData sampleConfig envOk recordNumericPath).out = .returned (some err) := by
  refine ⟨by decide, by decide, ?_⟩
  rintro ⟨err, h⟩
  have hp : (insertData sampleConfig envOk recordNumericPath).out = .panicked := by decide
  rw [hp] at h
  exact Outcome.noConfusion h

/-- C6: on a record that passes `validateData`, whose `path`, `experiment`, `processing`
and `tier` are strings, and for which file registration returns the identifier `d` without
error, `insertData` returns success whatever the upsert returns; registration is called
with `(experiment, processing, tier, [path])` and is followed by the one upsert; afterwards
`record["did"] = d`, `record["path"]` is the original path, and every key other than
`dataset`, `did` and `path` keeps its value. -/
theorem insertData_success (cfg : Configuration) (env : Env) (rec : Record)
    (path e p t d : String) (hv : validateData cfg rec = none)
    (hpath : rec.lookup "path" = some (.str path))
    (he : rec.lookup "experiment" = some (.str e))
    (hp : rec.lookup "processing" = some (.str p))
    (ht : rec.lookup "tier" = some (.str t))
    (hreg : env.InsertFiles e p t [path] = (d, none)) :
    (insertData cfg env rec).out = .returned none ∧
    (insertData cfg env rec).calls =
      [.InsertFiles e p t [path] (d, none),
       .MongoUpsert cfg.DBName cfg.DBColl [(insertData cfg env rec).record]
        (env.MongoUpsert cfg.DBName cfg.DBColl [(insertData cfg env rec).record])] ∧
    (insertData cfg env rec).record.lookup "did" = some (.str d) ∧
    (insertData cfg env rec).record.lookup "path" = rec.lookup "path" ∧
    ∀ k, k ≠ "dataset" → k ≠ "did" → k ≠ "path" →
      (insertData cfg env rec).record.lookup k = rec.lookup k := by
  rw [insertData_registered cfg env rec path e p t d hv hpath he hp ht hreg]
  refine ⟨rfl, rfl, ?_, ?_, ?_⟩
  · exact AList.lookup_insert _
  · show AList.lookup "path" (AList.insert "did" _ (AList.insert "path" _ _)) = _
    rw [AList.lookup_insert_ne (by decide), AList.lookup_insert, hpath]
  · intro k h1 h2 h3
    show AList.lookup k (AList.insert "did" _ (AList.insert "path" _
      (AList.insert "dataset" _ rec))) = _
    rw [AList.lookup_insert_ne h2, AList.lookup_insert_ne h3, AList.lookup_insert_ne h1]

/-- C6 at the sample record: registration returns `did-1`. -/
theorem insertData_success_witness :
    (insertData sampleConfig envOk sampleRecord).out = .returned none ∧
    (insertData sampleConfig envOk sampleRecord).calls =
      [.InsertFiles "e1" "p1" "t1" ["/data/run1"] ("did-1", none),
       .MongoUpsert sampleConfig.DBName sampleConfig.DBColl
        [(insertData sampleConfig envOk sampleRecord).record]
        (envOk.MongoUpsert sampleConfig.DBName sampleConfig.DBColl
          [(insertData sampleConfig envOk sampleRecord).record])] ∧
    (insertData sampleConfig envOk sampleRecord).record.lookup "did" = some (.str "did-1") ∧
    (insertData sampleConfig envOk sampleRecord).record.lookup "path"
      = sampleRecord.lookup "path" ∧
    ∀ k, k ≠ "dataset" → k ≠ "did" → k ≠ "path" →
      (insertData sampleConfig envOk sampleRecord).record.lookup k = sampleRecord.lookup k :=
  insertData_success sampleConfig envOk sampleRecord "/data/run1" "e1" "p1" "t1" "did-1"
    (by decide) (by decide) (by decide) (by decide) (by decide) (by decide)

/-- C7 (as amended): on a record that passes `validateData` and whose `path`, `experiment`
`e`, `processing` `p` and `tier` `t` are strings, `insertData` sets `record["dataset"]` to
`"/" + e + "/" + p + "/" + t`, whatever the record's other fields are and whether or not
file registration succeeds. -/
theorem insertData_sets_dataset (cfg : Configuration) (env : Env) (rec : Record)
    (path e p t : String) (hv : validateData cfg rec = none)
    (hpath : rec.lookup "path" = some (.str path))
    (he : rec.lookup "experiment" = some (.str e))
    (hp : rec.lookup "processing" = some (.str p))
    (ht : rec.lookup "tier" = some (.str t)) :
    (insertData cfg env rec).record.lookup "dataset"
      = some (.str ("/" ++ e ++ "/" ++ p ++ "/" ++ t)) := by
  cases hreg : (env.InsertFiles e p t [path]).2 with
  | some err =>
    rw [insertData_registration_failed cfg env rec path e p t err hv hpath he hp ht hreg]
    show AList.lookup "dataset" (AList.insert "path" _ (AList.insert "dataset" _ rec)) = _
    rw [AList.lookup_insert_ne (by decide), AList.lookup_insert]
  | none =>
    have hpair : env.InsertFiles e p t [path] = ((env.InsertFiles e p t [path]).1, none) :=
      Prod.ext rfl hreg
    rw [insertData_registered cfg env rec path e p t _ hv hpath he hp ht hpair]
    show AList.lookup "dataset" (AList.insert "did" _ (AList.insert "path" _
      (AList.insert "dataset" _ rec))) = _
    rw [AList.lookup_insert_ne (by decide), AList.lookup_insert_ne (by decide),
      AList.lookup_insert]

/-- The amended C7 at the specification's example: `e1`, `p1`, `t1` give `/e1/p1/t1`. -/
theorem insertData_sets_dataset_witness :
    (insertData sampleConfig envOk sampleRecord).record.lookup "dataset"
      = some (.str "/e1/p1/t1") :=
  insertData_sets_dataset sampleConfig envOk sampleRecord "/data/run1" "e1" "p1" "t1"
    (by decide) (by decide) (by decide) (by decide) (by decide)

/-- C7 (counterexample): under a schema whose mandatory attribute `owner` the record lacks,
the record with `experiment = e1`, `processing = p1`, `tier = t1` is rejected by the
validation guard and `insertData` leaves it without a `dataset`. -/
theorem insertData_invalid_record_no_dataset :
    sampleRecord.lookup "experiment" = some (.str "e1") ∧
    sampleRecord.lookup "processing" = some (.str "p1") ∧
    sampleRecord.lookup "tier" = some (.str "t1") ∧
    (insertData (mkConfig ["owner"] []) envOk sampleRecord).record.lookup "dataset" = none := by
  decide

/-- C8: every call of `insertData` makes at most one upsert; whenever it does not return
success (it returns an error or panics) it has made none; and when it has made one, the
record passed validation, the four fields were strings, registration had been called
before it and had returned no error, and the upserted record carries the derived
`dataset`. -/
theorem insertData_upsert_discipline (cfg : Configuration) (env : Env) (rec : Record) :
    upsertCount (insertData cfg env rec).calls ≤ 1 ∧
    ((insertData cfg env rec).out ≠ .returned none →
      upsertCount (insertData cfg env rec).calls = 0) ∧
    (upsertCount (insertData cfg env rec).calls = 1 →
      validateData cfg rec = none ∧
      ∃ path e p t d,
        rec.lookup "path" = some (.str path) ∧ rec.lookup "experiment" = some (.str e) ∧
        rec.lookup "processing" = some (.str p) ∧ rec.lookup "tier" = some (.str t) ∧
        env.InsertFiles e p t [path] = (d, none) ∧
        (insertData cfg env rec).record.lookup "dataset"
          = some (.str ("/" ++ e ++ "/" ++ p ++ "/" ++ t)) ∧
        (insertData cfg env rec).out = .returned none ∧
        (insertData cfg env rec).calls =
          [.InsertFiles e p t [path] (d, none),
           .MongoUpsert cfg.DBName cfg.DBColl [(insertData cfg env rec).record]
            (env.MongoUpsert cfg.DBName cfg.DBColl [(insertData cfg env rec).record])]) := by
  rcases insertData_cases cfg env rec with
    ⟨err, hv, h⟩ | ⟨hv, h⟩ | ⟨path, e, p, t, err, hv, hpath, he, hp, ht, hreg, h⟩ |
    ⟨path, e, p, t, d, hv, hpath, he, hp, ht, hreg, h⟩
  · rw [h]
    simp [upsertCount]
  · rw [h]
    simp [upsertCount]
  · rw [h]
    simp [upsertCount, Call.isUpsert]
  · rw [h]
    refine ⟨by simp [upsertCount, Call.isUpsert], by simp, ?_⟩
    intro _
    refine ⟨hv, path, e, p, t, d, hpath, he, hp, ht, hreg, ?_, rfl, rfl⟩
    show AList.lookup "dataset" (AList.insert "did" _ (AList.insert "path" _
      (AList.insert "dataset" _ rec))) = _
    rw [AList.lookup_insert_ne (by decide), AList.lookup_insert_ne (by decide),
      AList.lookup_insert]

/-- Enriching a record keeps it valid: the keys added by `insertData` leave the outcome
of `validateData` unchanged when it was success. -/
theorem validateData_enriched (cfg : Configuration) (rec : Record) (ds path d : Value)
    (hv : validateData cfg rec = none) :
    validateData cfg (((rec.insert "dataset" ds).insert "path" path).insert "did" d) = none := by
  rw [validateData_eq_none_iff, matched_length_eq_iff _ _ (AList.keys_nodup _),
    matched_length_eq_iff _ _ (AList.keys_nodup _)] at hv ⊢
  obtain ⟨⟨hm, hma⟩, ⟨ha, haa⟩⟩ := hv
  have hkeys : ∀ a, a ∈ rec.keys →
      a ∈ (((rec.insert "dataset" ds).insert "path" path).insert "did" d).keys := by
    intro a hmem
    rw [← AList.mem_keys] at hmem ⊢
    simp only [AList.mem_insert]
    exact Or.inr (Or.inr (Or.inr hmem))
  exact ⟨⟨hm, fun a h => hkeys a (hma a h)⟩, ⟨ha, fun a h => hkeys a (haa a h)⟩⟩

/-- C10: `insertData` is not idempotent in its effects.  When a first call succeeds on a
record, a second call on the record it left (enriched with `dataset` and `did`), with file
registration succeeding again, passes validation and succeeds as well, and each of the two
calls issues one upsert: two upserts in all. -/
theorem insertData_twice_two_upserts (cfg : Configuration) (env1 env2 : Env) (rec : Record)
    (path e p t : String)
    (hpath : rec.lookup "path" = some (.str path))
    (he : rec.lookup "experiment" = some (.str e))
    (hp : rec.lookup "processing" = some (.str p))
    (ht : rec.lookup "tier" = some (.str t))
    (h1 : (insertData cfg env1 rec).out = .returned none)
    (h2 : (env2.InsertFiles e p t [path]).2 = none) :
    validateData cfg (insertData cfg env1 rec).record = none ∧
    (insertData cfg env2 (insertData cfg env1 rec).record).out = .returned none ∧
    upsertCount (insertData cfg env1 rec).calls = 1 ∧
    upsertCount (insertData cfg env2 (insertData cfg env1 rec).record).calls = 1 ∧
    upsertCount ((insertData cfg env1 rec).calls
      ++ (insertData cfg env2 (insertData cfg env1 rec).record).calls) = 2 := by
  have hv : validateData cfg rec = none := by
    rcases insertData_cases cfg env1 rec with
      ⟨err, _, h⟩ | ⟨_, h⟩ | ⟨_, _, _, _, err, _, _, _, _, _, _, h⟩ |
      ⟨_, _, _, _, _, hv, _⟩
    · rw [h] at h1
      simp at h1
    · rw [h] at h1
      simp at h1
    · rw [h] at h1
      simp at h1
    · exact hv
  have hreg1 : (env1.InsertFiles e p t [path]).2 = none := by
    cases hr : (env1.InsertFiles e p t [path]).2 with
    | none => rfl
    | some err =>
      rw [insertData_registration_failed cfg env1 rec path e p t err hv hpath he hp ht hr] at h1
      simp at h1
  have hpair1 : env1.InsertFiles e p t [path] = ((env1.InsertFiles e p t [path]).1, none) :=
    Prod.ext rfl hreg1
  have hpair2 : env2.InsertFiles e p t [path] = ((env2.InsertFiles e p t [path]).1, none) :=
    Prod.ext rfl h2
  have hfirst := insertData_registered cfg env1 rec path e p t _ hv hpath he hp ht hpair1
  have hv2 := validateData_enriched cfg rec (.str ("/" ++ e ++ "/" ++ p ++ "/" ++ t))
    (.str path) (.str (env1.InsertFiles e p t [path]).1) hv
  have hsecond := insertData_registered cfg env2
    (((rec.insert "dataset" (.str ("/" ++ e ++ "/" ++ p ++ "/" ++ t))).insert
      "path" (.str path)).insert "did" (.str (env1.InsertFiles e p t [path]).1))
    path e p t _ hv2
    (by rw [AList.lookup_insert_ne (by decide), AList.lookup_insert])
    (by rw [AList.lookup_insert_ne (by decide), AList.lookup_insert_ne (by decide),
      AList.lookup_insert_ne (by decide), he])
    (by rw [AList.lookup_insert_ne (by decide), AList.lookup_insert_ne (by decide),
      AList.lookup_insert_ne (by decide), hp])
    (by rw [AList.lookup_insert_ne (by decide), AList.lookup_insert_ne (by decide),
      AList.lookup_insert_ne (by decide), ht])
    hpair2
  rw [hfirst]
  simp only
  rw [hsecond]
  refine ⟨hv2, rfl, ?_, ?_, ?_⟩ <;> simp [upsertCount, Call.isUpsert]

/-- C10 at the sample record, registered twice. -/
theorem insertData_twice_two_upserts_witness :
    validateData sampleConfig (insertData sampleConfig envOk sampleRecord).record = none ∧
    (insertData sampleConfig envOk (insertData sampleConfig envOk sampleRecord).record).out
      = .returned none ∧
    upsertCount (insertData sampleConfig envOk sampleRecord).calls = 1 ∧
    upsertCount
      (insertData sampleConfig envOk (insertData sampleConfig envOk sampleRecord).record).calls
      = 1 ∧
    upsertCount ((insertData sampleConfig envOk sampleRecord).calls
      ++ (insertData sampleConfig envOk
        (insertData sampleConfig envOk sampleRecord).record).calls) = 2 :=
  insertData_twice_two_upserts sampleConfig envOk envOk sampleRecord "/data/run1" "e1" "p1" "t1"
    (by decide) (by decide) (by decide) (by decide) (by decide) (by decide)

end ChessDataManagement
